import Mathlib

/-!
Verification of the MetaMask wallet-connection state machine of the
`useWallet` hook (source: `src/unnamed/part_002`).

The hook owns a single `WalletState` record and mutates it through
`setWalletState` from five places:
  * `connectWallet` (three settings: the not-installed early return, the
    transition to the connecting state, and the settled result of the
    account request);
  * `disconnectWallet`;
  * the mount-time `checkConnection` effect;
  * the `handleAccountsChanged` listener for the provider's
    `accountsChanged` event.

Each of these is embedded below as a pure function from the previous
state (plus the environment: whether the provider is installed and how
the asynchronous request settles) to the next state.  `connectWallet`
additionally gets a trace version listing every intermediate state it
sets, so that claims about states "passed through" can be stated.
-/

/-- The `WalletState` record of `src/types` (`part_000`): `address` and
`error` are `string | null` in the source, embedded as `Option String`. -/
structure WalletState where
  isConnected : Bool
  address : Option String
  isConnecting : Bool
  error : Option String
deriving Repr, DecidableEq

/-- The initial state passed to `useState` in `useWallet`. -/
def initialWalletState : WalletState :=
  { isConnected := false, address := none, isConnecting := false, error := none }

/-- The failure value rejected by the provider's request operation: a
numeric `code` and a `message`, either of which may be absent. -/
structure ProviderError where
  code : Option Int
  message : Option String
deriving Repr, DecidableEq

/-- How the awaited `requestAccounts()` call settles: it either resolves
with a list of address strings or rejects with a provider failure. -/
inductive RequestOutcome where
  | resolved (accounts : List String)
  | rejected (e : ProviderError)
deriving Repr, DecidableEq

/-- The fixed message of the not-installed early return in `connectWallet`. -/
def notInstalledMsg : String :=
  "MetaMask is not installed. Please install MetaMask to continue."

/-- The error-message mapping of the `catch` block in `connectWallet`:
`error.code === 4001` and `error.code === -32002` map to fixed messages;
otherwise a truthy `error.message` (in JavaScript the empty string is
falsy) is surfaced verbatim; otherwise the generic fallback is used. -/
def errorMessageFor (e : ProviderError) : String :=
  if e.code = some 4001 then "Connection rejected by user"
  else if e.code = some (-32002) then "Connection request already pending"
  else match e.message with
    | some m => if m = "" then "Failed to connect wallet" else m
    | none => "Failed to connect wallet"

/-- The trace of states that `connectWallet` sets, in order.  When the
provider is not installed it sets exactly one state (spreading `prev`,
setting `error` and clearing `isConnecting`) and returns without awaiting.
Otherwise it first sets the connecting state (spreading `prev`, raising
`isConnecting`, clearing `error`), awaits the request, and then sets the
settled state: on a non-empty resolved list the connected state with the
first address; on an empty resolved list the code throws
`Error('No accounts found')`, which its own `catch` turns into a
disconnected state via the message mapping; on rejection the catch does
the same with the rejection's code and message. -/
def connectWalletTrace (installed : Bool) (outcome : RequestOutcome)
    (prev : WalletState) : List WalletState :=
  if !installed then
    [{ prev with error := some notInstalledMsg, isConnecting := false }]
  else
    [{ prev with isConnecting := true, error := none },
     match outcome with
     | .resolved (a :: _) =>
       { isConnected := true, address := some a, isConnecting := false, error := none }
     | .resolved [] =>
       { isConnected := false, address := none, isConnecting := false,
         error := some (errorMessageFor { code := none, message := some "No accounts found" }) }
     | .rejected e =>
       { isConnected := false, address := none, isConnecting := false,
         error := some (errorMessageFor e) }]

/-- The state in which `connectWallet` leaves the hook: the last state of
its trace. -/
def connectWallet (installed : Bool) (outcome : RequestOutcome)
    (prev : WalletState) : WalletState :=
  (connectWalletTrace installed outcome prev).getLastD prev

/-- `disconnectWallet`: unconditionally sets the empty disconnected state. -/
def disconnectWallet (_prev : WalletState) : WalletState :=
  { isConnected := false, address := none, isConnecting := false, error := none }

/-- `formatAddress`: an empty (falsy) string yields the empty string;
otherwise `slice(0, 6)` and `slice(-4)` joined by the three-character
ASCII sequence `"..."`.  String slicing is embedded on the character
list: `slice(0, 6)` takes the first six characters and `slice(-4)` drops
all but the last four (dropping nothing when the string is shorter). -/
def formatAddress (address : String) : String :=
  if address = "" then ""
  else String.mk (address.data.take 6) ++ "..."
       ++ String.mk (address.data.drop (address.data.length - 4))

/-- How the awaited silent `getAccounts()` call of the mount-time check
settles: resolution with a list, or any thrown failure (which the check
swallows). -/
inductive AccountsResult where
  | resolved (accounts : List String)
  | rejected
deriving Repr, DecidableEq

/-- The mount-time `checkConnection` effect: when the provider is
installed it silently queries accounts; a non-empty result sets the
connected state with the first address; an empty result sets nothing; a
failure is logged and swallowed, setting nothing. -/
def checkConnection (installed : Bool) (result : AccountsResult)
    (prev : WalletState) : WalletState :=
  if installed then
    match result with
    | .resolved (a :: _) =>
      { isConnected := true, address := some a, isConnecting := false, error := none }
    | .resolved [] => prev
    | .rejected => prev
  else prev

/-- The `handleAccountsChanged` listener: an empty list invokes
`disconnectWallet()`; otherwise, when the first entry differs from the
stored address (`accounts[0] !== walletState.address`, and in JavaScript
a string is never strictly equal to `null`), it spreads the previous
state, stores the first entry as `address`, sets `isConnected`, and
clears `error`; when the first entry equals the stored address it sets
nothing. -/
def handleAccountsChanged (accounts : List String) (prev : WalletState) : WalletState :=
  match accounts with
  | [] => disconnectWallet prev
  | a :: _ =>
    if some a ≠ prev.address then
      { prev with address := some a, isConnected := true, error := none }
    else prev

/-- The states the hook can reach from the initial state: every state a
sequence of the operations ever sets, including the intermediate
connecting state inside `connectWallet` (hence membership in the trace),
with the environment (installedness, request outcomes, notification
payloads) free at every step. -/
inductive Reach : WalletState → Prop where
  | init : Reach initialWalletState
  | connectStep (s : WalletState) (installed : Bool) (outcome : RequestOutcome)
      (t : WalletState) (hs : Reach s) (ht : t ∈ connectWalletTrace installed outcome s) :
      Reach t
  | disconnectStep (s : WalletState) (hs : Reach s) : Reach (disconnectWallet s)
  | checkStep (s : WalletState) (installed : Bool) (result : AccountsResult)
      (hs : Reach s) : Reach (checkConnection installed result s)
  | accountsStep (s : WalletState) (accounts : List String) (hs : Reach s) :
      Reach (handleAccountsChanged accounts s)

/-- The states reachable when the provider is never installed: the
listener effect and the mount-time query are then inert (the
`accountsChanged` listener is only registered when the provider is
installed), so the only steps are `connectWallet` with the not-installed
early return and `disconnectWallet`. -/
inductive ReachNoProvider : WalletState → Prop where
  | init : ReachNoProvider initialWalletState
  | connectStep (s : WalletState) (outcome : RequestOutcome) (t : WalletState)
      (hs : ReachNoProvider s) (ht : t ∈ connectWalletTrace false outcome s) :
      ReachNoProvider t
  | disconnectStep (s : WalletState) (hs : ReachNoProvider s) :
      ReachNoProvider (disconnectWallet s)
  | checkStep (s : WalletState) (result : AccountsResult) (hs : ReachNoProvider s) :
      ReachNoProvider (checkConnection false result s)

/-- C2: when the provider is installed and the account request resolves
with a non-empty list, `connectWallet` settles into the connected state
whose address is the first element of the list, with `isConnected` true,
`isConnecting` false and `error` null — for every non-empty result list,
the first element wins. -/
theorem connect_success_first_address (prev : WalletState) (a : String) (rest : List String) :
    connectWallet true (.resolved (a :: rest)) prev =
      { isConnected := true, address := some a, isConnecting := false, error := none } := rfl

/-- C8: when the provider is installed and the account request resolves
with a zero-length list, `connectWallet` settles into the disconnected
state (`isConnected` false, `address` null, `isConnecting` false) with
the generic no-accounts message. -/
theorem connect_empty_accounts (prev : WalletState) :
    connectWallet true (.resolved []) prev =
      { isConnected := false, address := none, isConnecting := false,
        error := some "No accounts found" } := rfl

/-- C9: `disconnectWallet` from any state produces the empty disconnected
state, and calling it from an already-disconnected state is idempotent,
producing a state identical to the one before the call. -/
theorem disconnect_resets_and_idempotent (prev : WalletState) :
    disconnectWallet prev =
      { isConnected := false, address := none, isConnecting := false, error := none } ∧
    (prev = { isConnected := false, address := none, isConnecting := false, error := none } →
      disconnectWallet prev = prev) := by
  refine ⟨rfl, fun h => ?_⟩
  rw [h]
  rfl

/-- C9 witness: disconnecting from the (already-disconnected) initial
state produces the empty state and leaves the state identical. -/
theorem disconnect_resets_and_idempotent_witness :
    disconnectWallet initialWalletState =
      { isConnected := false, address := none, isConnecting := false, error := none } ∧
    disconnectWallet initialWalletState = initialWalletState :=
  ⟨(disconnect_resets_and_idempotent initialWalletState).1,
   (disconnect_resets_and_idempotent initialWalletState).2 rfl⟩

/-- C6: an account-change notification with an empty list while the
state is connected transitions to the fully-empty disconnected state:
`isConnected` false, `address` null, `isConnecting` false, `error` null. -/
theorem accounts_changed_empty_disconnects (prev : WalletState)
    (hconn : prev.isConnected = true) :
    handleAccountsChanged [] prev =
      { isConnected := false, address := none, isConnecting := false, error := none } := rfl

/-- C6 witness: the empty notification from a concrete connected state. -/
theorem accounts_changed_empty_disconnects_witness :
    handleAccountsChanged []
        { isConnected := true, address := some "0xAAA", isConnecting := false, error := none } =
      { isConnected := false, address := none, isConnecting := false, error := none } :=
  accounts_changed_empty_disconnects
    { isConnected := true, address := some "0xAAA", isConnecting := false, error := none } rfl

/-- C7: an account-change notification with a non-empty list whose first
entry differs from the stored address, while connected, updates `address`
to that first entry, keeps `isConnected` true, clears `error` to null,
and leaves `isConnecting` unchanged. -/
theorem accounts_changed_switch_updates_address (prev : WalletState) (a : String)
    (rest : List String) (hconn : prev.isConnected = true)
    (hne : some a ≠ prev.address) :
    (handleAccountsChanged (a :: rest) prev).address = some a ∧
    (handleAccountsChanged (a :: rest) prev).isConnected = true ∧
    (handleAccountsChanged (a :: rest) prev).error = none ∧
    (handleAccountsChanged (a :: rest) prev).isConnecting = prev.isConnecting := by
  simp [handleAccountsChanged, hne]

/-- C7 witness: switching from a concrete connected state to a new first
address. -/
theorem accounts_changed_switch_updates_address_witness :
    (handleAccountsChanged ["0xBBB", "0xCCC"]
        { isConnected := true, address := some "0xAAA", isConnecting := false,
          error := some "stale" }).address = some "0xBBB" ∧
    (handleAccountsChanged ["0xBBB", "0xCCC"]
        { isConnected := true, address := some "0xAAA", isConnecting := false,
          error := some "stale" }).isConnected = true ∧
    (handleAccountsChanged ["0xBBB", "0xCCC"]
        { isConnected := true, address := some "0xAAA", isConnecting := false,
          error := some "stale" }).error = none ∧
    (handleAccountsChanged ["0xBBB", "0xCCC"]
        { isConnected := true, address := some "0xAAA", isConnecting := false,
          error := some "stale" }).isConnecting = false :=
  accounts_changed_switch_updates_address
    { isConnected := true, address := some "0xAAA", isConnecting := false,
      error := some "stale" } "0xBBB" ["0xCCC"] rfl (by decide)

/-- C10: an account-change notification with a non-empty list while the
state is disconnected (`isConnected` false, `address` null) transitions
to the connected state with the list's first entry as `address`,
`isConnected` true and `error` null — the notification alone establishes
a connection without any connect call. -/
theorem accounts_changed_connects_from_disconnected (prev : WalletState) (a : String)
    (rest : List String) (hconn : prev.isConnected = false)
    (haddr : prev.address = none) :
    (handleAccountsChanged (a :: rest) prev).isConnected = true ∧
    (handleAccountsChanged (a :: rest) prev).address = some a ∧
    (handleAccountsChanged (a :: rest) prev).error = none := by
  simp [handleAccountsChanged, haddr]

/-- C10 witness: a notification arriving at the initial (disconnected)
state. -/
theorem accounts_changed_connects_from_disconnected_witness :
    (handleAccountsChanged ["0xAAA"] initialWalletState).isConnected = true ∧
    (handleAccountsChanged ["0xAAA"] initialWalletState).address = some "0xAAA" ∧
    (handleAccountsChanged ["0xAAA"] initialWalletState).error = none :=
  accounts_changed_connects_from_disconnected initialWalletState "0xAAA" [] rfl rfl

/-- C4: when the account request rejects, `connectWallet` settles into
the disconnected state (`isConnected` false, `address` null,
`isConnecting` false) and `error` is determined by the failure's code:
4001 yields the rejected-by-user message, -32002 the already-pending
message, any other failure with a (non-empty, hence truthy) message
yields that message verbatim, and a failure with no message (absent, or
the empty string, which JavaScript treats as falsy) yields the generic
fallback. -/
theorem connect_rejection_error_mapping (prev : WalletState) (e : ProviderError) :
    (connectWallet true (.rejected e) prev).isConnected = false ∧
    (connectWallet true (.rejected e) prev).address = none ∧
    (connectWallet true (.rejected e) prev).isConnecting = false ∧
    (e.code = some 4001 →
      (connectWallet true (.rejected e) prev).error = some "Connection rejected by user") ∧
    (e.code = some (-32002) →
      (connectWallet true (.rejected e) prev).error = some "Connection request already pending") ∧
    (e.code ≠ some 4001 → e.code ≠ some (-32002) →
      ∀ m : String, e.message = some m → m ≠ "" →
        (connectWallet true (.rejected e) prev).error = some m) ∧
    (e.code ≠ some 4001 → e.code ≠ some (-32002) →
      (e.message = none ∨ e.message = some "") →
        (connectWallet true (.rejected e) prev).error = some "Failed to connect wallet") := by
  refine ⟨rfl, rfl, rfl, ?_, ?_, ?_, ?_⟩
  · intro h
    show some (errorMessageFor e) = _
    simp [errorMessageFor, h]
  · intro h
    show some (errorMessageFor e) = _
    have h1 : e.code ≠ some 4001 := by rw [h]; decide
    simp [errorMessageFor, h, h1]
  · intro h1 h2 m hm hne
    show some (errorMessageFor e) = _
    simp [errorMessageFor, h1, h2, hm, hne]
  · intro h1 h2 hm
    show some (errorMessageFor e) = _
    rcases hm with hm | hm <;> simp [errorMessageFor, h1, h2, hm]

/-- C4 witness: a rejection carrying code 4001 from the initial state
yields the rejected-by-user message in the disconnected state. -/
theorem connect_rejection_error_mapping_witness :
    (connectWallet true (.rejected { code := some 4001, message := some "denied" })
        initialWalletState).isConnected = false ∧
    (connectWallet true (.rejected { code := some 4001, message := some "denied" })
        initialWalletState).error = some "Connection rejected by user" :=
  ⟨(connect_rejection_error_mapping initialWalletState
      { code := some 4001, message := some "denied" }).1,
   (connect_rejection_error_mapping initialWalletState
      { code := some 4001, message := some "denied" }).2.2.2.1 rfl⟩

/-- Spec-side formulation for comparison with `formatAddress`: the first
`n` characters of a string. -/
def specFirstChars (n : Nat) (s : String) : String :=
  String.mk (s.data.take n)

/-- Spec-side formulation for comparison with `formatAddress`: the last
`n` characters of a string. -/
def specLastChars (n : Nat) (s : String) : String :=
  String.mk (s.data.reverse.take n).reverse

/-- C5 counterexample: the claim's stated output uses the single Unicode
ellipsis character, but `formatAddress` joins the slices with the
three-character ASCII sequence, so the claimed equality fails on the
claim's own example input. -/
theorem format_address_unicode_ellipsis_counterexample :
    formatAddress "0x1234567890abcdef" ≠ "0x1234…cdef" := by decide

/-- C5 amended: for every non-empty address string, `formatAddress`
returns the first 6 characters, the three-character ASCII dot sequence
"...", and the last 4 characters; in particular
`formatAddress "0x1234567890abcdef"` returns "0x1234...cdef" (three
ASCII dots, not a single ellipsis character), and `formatAddress ""`
returns "". -/
theorem format_address_amended :
    (∀ s : String, s ≠ "" →
      formatAddress s = specFirstChars 6 s ++ "..." ++ specLastChars 4 s) ∧
    formatAddress "0x1234567890abcdef" = "0x1234...cdef" ∧
    formatAddress "" = "" := by
  refine ⟨fun s h => ?_, by decide, rfl⟩
  have hr : s.data.drop (s.length - 4) = (s.data.reverse.take 4).reverse :=
    List.rtake_eq_reverse_take_reverse s.data 4
  simp [formatAddress, specFirstChars, specLastChars, h, hr]

/-- C5 amended witness: the general clause evaluated at the claim's
example address. -/
theorem format_address_amended_witness :
    formatAddress "0x1234567890abcdef" =
      specFirstChars 6 "0x1234567890abcdef" ++ "..." ++ specLastChars 4 "0x1234567890abcdef" :=
  format_address_amended.1 "0x1234567890abcdef" (by decide)

/-- When the provider is never installed, every reachable state is
disconnected: `isConnected` false and `address` null. -/
theorem reachNoProvider_disconnected (s : WalletState) (h : ReachNoProvider s) :
    s.isConnected = false ∧ s.address = none := by
  induction h with
  | init => exact ⟨rfl, rfl⟩
  | connectStep s outcome t hs ht ih =>
    simp only [connectWalletTrace, Bool.not_false, if_true, List.mem_singleton] at ht
    subst ht
    exact ih
  | disconnectStep s hs ih => exact ⟨rfl, rfl⟩
  | checkStep s result hs ih => simpa [checkConnection] using ih

/-- C3: when the capability detector reports the provider not installed,
`connectWallet` from any reachable state of a provider-less session sets
exactly one state — the disconnected state carrying the fixed
not-installed message with `isConnecting` false — independently of the
request outcome (so nothing is awaited), and no state it sets has
`isConnecting` true, i.e. the call never passes through the connecting
state. -/
theorem connect_not_installed_synchronous (s : WalletState) (outcome : RequestOutcome)
    (h : ReachNoProvider s) :
    connectWalletTrace false outcome s =
      [{ isConnected := false, address := none, isConnecting := false,
         error := some notInstalledMsg }] ∧
    connectWallet false outcome s =
      { isConnected := false, address := none, isConnecting := false,
        error := some notInstalledMsg } ∧
    ∀ t ∈ connectWalletTrace false outcome s, t.isConnecting = false := by
  obtain ⟨hc, ha⟩ := reachNoProvider_disconnected s h
  have htrace : connectWalletTrace false outcome s =
      [{ isConnected := false, address := none, isConnecting := false,
         error := some notInstalledMsg }] := by
    cases s
    simp_all [connectWalletTrace]
  refine ⟨htrace, ?_, ?_⟩
  · rw [connectWallet, htrace]
    rfl
  · rw [htrace]
    intro t ht
    simp only [List.mem_singleton] at ht
    rw [ht]

/-- C3 witness: from the initial state of a provider-less session, with
a (necessarily ignored) concrete request outcome. -/
theorem connect_not_installed_synchronous_witness :
    connectWalletTrace false (.resolved ["0xAAA"]) initialWalletState =
      [{ isConnected := false, address := none, isConnecting := false,
         error := some notInstalledMsg }] ∧
    connectWallet false (.resolved ["0xAAA"]) initialWalletState =
      { isConnected := false, address := none, isConnecting := false,
        error := some notInstalledMsg } :=
  ⟨(connect_not_installed_synchronous initialWalletState (.resolved ["0xAAA"])
      ReachNoProvider.init).1,
   (connect_not_installed_synchronous initialWalletState (.resolved ["0xAAA"])
      ReachNoProvider.init).2.1⟩

/-- C1: in every state reachable from the initial state by any sequence
of the operations (connect with any provider outcome, disconnect, the
mount-time check, and account-change notifications), `address` is
non-null if and only if `isConnected` is true. -/
theorem reach_address_iff_connected (s : WalletState) (h : Reach s) :
    s.address ≠ none ↔ s.isConnected = true := by
  induction h with
  | init => simp [initialWalletState]
  | connectStep s installed outcome t hs ht ih =>
    cases installed with
    | false =>
      simp only [connectWalletTrace, Bool.not_false, if_true, List.mem_singleton] at ht
      subst ht
      simpa using ih
    | true =>
      simp only [connectWalletTrace, Bool.not_true, if_neg, Bool.false_eq_true,
        not_false_eq_true, List.mem_cons, List.mem_singleton, List.not_mem_nil,
        or_false] at ht
      rcases ht with ht | ht
      · subst ht
        simpa using ih
      · rcases outcome with accounts | e
        · rcases accounts with _ | ⟨a, rest⟩ <;> subst ht <;> simp
        · subst ht
          simp
  | disconnectStep s hs ih => simp [disconnectWallet]
  | checkStep s installed result hs ih =>
    cases installed with
    | false => simpa [checkConnection] using ih
    | true =>
      rcases result with accounts | _
      · rcases accounts with _ | ⟨a, rest⟩
        · simpa [checkConnection] using ih
        · simp [checkConnection]
      · simpa [checkConnection] using ih
  | accountsStep s accounts hs ih =>
    rcases accounts with _ | ⟨a, rest⟩
    · simp [handleAccountsChanged, disconnectWallet]
    · by_cases hne : some a = s.address
      · simpa [handleAccountsChanged, hne] using ih
      · simp [handleAccountsChanged, hne]

/-- C1 witness: the invariant instantiated at the initial state, which
is reachable by the empty sequence of operations. -/
theorem reach_address_iff_connected_witness :
    initialWalletState.address ≠ none ↔ initialWalletState.isConnected = true :=
  reach_address_iff_connected initialWalletState Reach.init
